import Mathlib

/-!
Shallow embedding of the EmoTrack sampling-and-batching pipeline and of the
store operations that back it, together with proofs of the specified
properties.  Timestamps are modelled exactly as rationals; fallible calls
return `Except` or report success with a Boolean, following the source.
-/

/-- A pending batch element as built by the capture loop: capture timestamp
(seconds since epoch) and emotion label. -/
abbrev BatchEntry := ℚ × String

/-- `BATCH_SIZE = 60` (frontend/app.py line 22, EmoTrack.py line 17). -/
def BATCH_SIZE : Nat := 60

/-- `FRAME_SAMPLE_RATE = 24` (frontend/app.py line 23). -/
def FRAME_SAMPLE_RATE : Nat := 24

/-- The sampling gate of the capture loop (frontend/app.py line 369,
EmoTrack.py line 339): a frame is submitted for classification exactly when
`frame_count % sample_interval == 0`.  It is a pure function of the counter
and the interval. -/
def shouldSample (frame_count sample_interval : Nat) : Bool :=
  frame_count % sample_interval == 0

/-- The state the capture session acts on: the durable `emotions` store
contents (as `(timestamp, emotion)` pairs, in insertion order) and the
in-memory `st.session_state.emotions_batch`. -/
structure BatchState where
  store : List BatchEntry
  batch : List BatchEntry
  deriving DecidableEq

/-- frontend/app.py `save_emotions_batch` (lines 59-70): posts the batch to
the backend, which appends it to the `emotions` table, and returns `True`;
on any error the exception is caught, an error message is displayed, and
`False` is returned with the store unchanged.  The function itself never
touches the in-memory batch.  Whether the external write succeeds is
modelled by the `storeOk` parameter. -/
def save_emotions_batch (storeOk : Bool) (store batch : List BatchEntry) :
    List BatchEntry × Bool :=
  if storeOk then (store ++ batch, true) else (store, false)

/-- The flush sequence as written at both frontend call sites (batch-full,
lines 383-384, and the Stop handler, lines 339-340): call
`save_emotions_batch` and then assign `st.session_state.emotions_batch = []`,
ignoring the Boolean the call returned. -/
def flushStep (storeOk : Bool) (st : BatchState) : BatchState :=
  { store := (save_emotions_batch storeOk st.store st.batch).1, batch := [] }

/-- One classified sample handled by the capture loop (frontend/app.py lines
371-384, EmoTrack.py lines 341-349): append `(ts, emotion)` to the batch
unless the result is the sentinel "NO FACE", which is silently dropped; when
the batch reaches `BATCH_SIZE`, save and clear it. -/
def recordStep (storeOk : Bool) (st : BatchState) (ts : ℚ) (emotion : String) :
    BatchState :=
  if emotion = "NO FACE" then st
  else
    let batch := st.batch ++ [(ts, emotion)]
    if BATCH_SIZE ≤ batch.length then
      flushStep storeOk { store := st.store, batch := batch }
    else
      { store := st.store, batch := batch }

/-- A whole sequence of classified samples fed through the capture loop. -/
def runRecords (storeOk : Bool) (st : BatchState) (calls : List BatchEntry) :
    BatchState :=
  calls.foldl (fun s c => recordStep storeOk s c.1 c.2) st

/-- The Stop handler (frontend/app.py lines 335-341): if the batch is
nonempty, save it and clear it. -/
def stopStep (storeOk : Bool) (st : BatchState) : BatchState :=
  if st.batch = [] then st else flushStep storeOk st

/-- One `(Type, Confidence)` emotion entry of a Rekognition face detail. -/
structure EmotionEntry where
  type : String
  confidence : ℚ
  deriving DecidableEq

/-- One face entry of a Rekognition `detect_faces` response. -/
structure FaceDetail where
  emotions : List EmotionEntry
  deriving DecidableEq

/-- A Rekognition `detect_faces` response: zero or more face entries in
service order. -/
structure RekognitionResponse where
  faceDetails : List FaceDetail
  deriving DecidableEq

/-- logic/facial_analysis.py `detect_emotion` (lines 10-28) and the backend
`detect_emotion` endpoint (backend/app.py lines 104-114): if
`response["FaceDetails"]` is empty, return "NO FACE"; otherwise return
`response["FaceDetails"][0]["Emotions"][0]["Type"]`.  `Except.error ()`
models the IndexError raised by the unguarded inner `[0]` when the first
face carries no emotion entries. -/
def detect_emotion (r : RekognitionResponse) : Except Unit String :=
  match r.faceDetails with
  | [] => Except.ok "NO FACE"
  | f :: _ =>
    match f.emotions with
    | [] => Except.error ()
    | e :: _ => Except.ok e.type

/-- A persisted row of the backend `emotions` table: `timestamp` and
`emotion` as inserted, `created_at` defaulted to the insertion time (the
store-assigned autoincrement `id` carries no information beyond the row's
position and is left implicit in the list order). -/
structure EmotionRow where
  timestamp : ℚ
  emotion : String
  created_at : ℚ
  deriving DecidableEq

/-- backend/app.py `save_emotions_batch` endpoint (lines 119-134): `INSERT
INTO emotions (timestamp, emotion) VALUES (?, ?)` executed once per batch
element in batch order, `created_at` defaulting to the insertion time
`now`. -/
def insert_many (now : ℚ) (store : List EmotionRow) (batch : List BatchEntry) :
    List EmotionRow :=
  store ++ batch.map (fun b => { timestamp := b.1, emotion := b.2, created_at := now })

/-- backend/app.py `export_emotions` (lines 238-271): `SELECT timestamp,
emotion, created_at FROM emotions ORDER BY timestamp DESC`; every persisted
field of every row is emitted. -/
def export_emotions (store : List EmotionRow) : List EmotionRow :=
  store.mergeSort (fun a b => decide (b.timestamp ≤ a.timestamp))

/-- EmoTrack.py export (lines 388-399): `SELECT * FROM emotions`, all rows in
table order. -/
def export_df (store : List EmotionRow) : List EmotionRow :=
  store

/-- backend/app.py `clear_emotions` (lines 273-287): without `confirm` it
raises HTTP 400 before touching the store; with `confirm` it executes
`DELETE FROM emotions`.  The result pairs the store contents after the call
with the HTTP outcome. -/
def clear_emotions (confirm : Bool) (store : List EmotionRow) :
    List EmotionRow × Except Nat String :=
  if ¬ confirm then (store, Except.error 400)
  else ([], Except.ok "All emotion data cleared")

/-- `DATE(DATETIME(timestamp, 'unixepoch'))`: the calendar day containing a
timestamp, as a count of whole days since the epoch. -/
def dayOf (ts : ℚ) : Int := ⌊ts / 86400⌋

/-- SQLite `ROUND(x, 2)`: round to two decimal places (the percentages being
rounded are nonnegative, where half-away-from-zero and half-up agree). -/
def round2 (q : ℚ) : ℚ := (round (100 * q) : Int) / 100

/-- The `WHERE timestamp >= ?` restriction of the daily-stats query. -/
def rowsInRange (startTs : ℚ) (store : List EmotionRow) : List EmotionRow :=
  store.filter (fun r => decide (startTs ≤ r.timestamp))

/-- One row of the daily-stats result (backend/app.py `EmotionStats`). -/
structure EmotionStats where
  date : Int
  emotion : String
  count : Nat
  percentage : ℚ
  deriving DecidableEq

/-- The emotion labels of the in-range rows falling on day `d`, in row
order. -/
def emotionsOfDay (rows : List EmotionRow) (d : Int) : List String :=
  (rows.filter (fun r => decide (dayOf r.timestamp = d))).map (fun r => r.emotion)

/-- The `GROUP BY date, emotion` result rows for one day: one row per
distinct emotion of the day, carrying its count and
`ROUND(count / total * 100, 2)` of the day's total. -/
def statsForDay (rows : List EmotionRow) (d : Int) : List EmotionStats :=
  (emotionsOfDay rows d).dedup.map (fun e =>
    { date := d, emotion := e,
      count := (emotionsOfDay rows d).count e,
      percentage := round2 (((emotionsOfDay rows d).count e : ℚ) /
        ((emotionsOfDay rows d).length : ℚ) * 100) })

/-- backend/app.py `get_daily_emotion_stats` (lines 136-181): rows with
`timestamp >= startTs` grouped by `(date, emotion)`, each group reported
with its count and its rounded percentage of that day's total.  The final
`ORDER BY date DESC, count DESC` display ordering is not modelled; the
result is the same set of rows. -/
def get_daily_emotion_stats (startTs : ℚ) (store : List EmotionRow) :
    List EmotionStats :=
  ((rowsInRange startTs store).map (fun r => dayOf r.timestamp)).dedup.flatMap
    (fun d => statsForDay (rowsInRange startTs store) d)

/-- An `emotions` database file in the migration's eyes: whether the schema
already has the `id` (and `created_at`) columns, and the `(timestamp,
emotion)` rows in table order. -/
structure MigDB where
  hasIdColumn : Bool
  rows : List BatchEntry
  deriving DecidableEq

/-- The filesystem state `migrate_data.py` acts on: the optional source
`emotions.db`, the optional target `data/emotions.db`, and the timestamped
backup copies living next to the target. -/
structure MigFS where
  oldDB : Option MigDB
  newDB : Option MigDB
  backups : List MigDB
  deriving DecidableEq

/-- migrate_data.py lines 39-65: if `id` is not among the columns, create
`emotions_new` with the new schema, copy `(timestamp, emotion)` across, drop
the old table and rename. -/
def upgradeSchema (db : MigDB) : MigDB :=
  if db.hasIdColumn then db else { hasIdColumn := true, rows := db.rows }

/-- migrate_data.py `migrate_database` (lines 11-91): no source store means
nothing to migrate; otherwise any pre-existing target is backed up, the
source is copied over the target, and the copy's schema is upgraded in
place when it still lacks the `id` column. -/
def migrate_database (fs : MigFS) : MigFS :=
  match fs.oldDB with
  | none => fs
  | some old =>
    let backups :=
      match fs.newDB with
      | some db => db :: fs.backups
      | none => fs.backups
    { oldDB := fs.oldDB, newDB := some (upgradeSchema old), backups := backups }

example : shouldSample 48 FRAME_SAMPLE_RATE = true := by decide
example : shouldSample 49 FRAME_SAMPLE_RATE = false := by decide
example :
    detect_emotion { faceDetails := [] } = Except.ok "NO FACE" := rfl
example :
    detect_emotion
      { faceDetails := [{ emotions := [⟨"HAPPY", 99⟩, ⟨"CALM", 1⟩] }] } =
      Except.ok "HAPPY" := rfl
example :
    detect_emotion { faceDetails := [{ emotions := [] }] } =
      Except.error () := rfl
example :
    runRecords true ⟨[], []⟩ [(0, "HAPPY"), (1, "NO FACE"), (2, "SAD")] =
      ⟨[], [(0, "HAPPY"), (2, "SAD")]⟩ := by decide

/-! ### Helper lemmas for the batching pipeline -/

/-- A single capture-loop sample preserves the combined content `store ++
batch`, extended by the entry exactly when it is not the sentinel. -/
theorem recordStep_content (st : BatchState) (ts : ℚ) (e : String) :
    (recordStep true st ts e).store ++ (recordStep true st ts e).batch =
      st.store ++ st.batch ++ (if e = "NO FACE" then [] else [(ts, e)]) := by
  by_cases h : e = "NO FACE"
  · simp [recordStep, h]
  · by_cases h2 : BATCH_SIZE ≤ st.batch.length + 1
    · simp [recordStep, h, h2, flushStep, save_emotions_batch, List.append_assoc]
    · simp [recordStep, h, h2, List.append_assoc]

/-- Running a whole call sequence preserves and extends the combined content
by the non-sentinel entries in call order. -/
theorem runRecords_content (calls : List BatchEntry) :
    ∀ st : BatchState,
      (runRecords true st calls).store ++ (runRecords true st calls).batch =
        st.store ++ st.batch ++ calls.filter (fun c => decide (c.2 ≠ "NO FACE")) := by
  induction calls with
  | nil => intro st; simp [runRecords]
  | cons c cs ih =>
    intro st
    have hstep :
        runRecords true st (c :: cs) =
          runRecords true (recordStep true st c.1 c.2) cs := rfl
    rw [hstep, ih, recordStep_content]
    by_cases h : c.2 = "NO FACE"
    · simp [List.filter_cons, h]
    · simp [List.filter_cons, h, List.append_assoc]

/-- A successful flush moves the whole batch onto the store and empties the
batch. -/
theorem flushStep_ok (st : BatchState) :
    (flushStep true st).store = st.store ++ st.batch ∧
      (flushStep true st).batch = [] := by
  constructor <;> rfl

/-- The Stop handler with a successful store write: the batch ends up on the
store and the in-memory batch is empty. -/
theorem stopStep_ok (st : BatchState) :
    (stopStep true st).store = st.store ++ st.batch ∧
      (stopStep true st).batch = [] := by
  by_cases h : st.batch = []
  · simp [stopStep, h]
  · simp [stopStep, h, flushStep_ok]

/-! ### The claims about the batching pipeline -/

/-- C1, counterexample: the claim says that after a failed store write the
in-memory batch still contains every entry it held before the call.  In
frontend/app.py the failed `save_emotions_batch` call returns `False`, but
the caller assigns `st.session_state.emotions_batch = []` regardless, so a
one-entry batch is empty — and has lost its entry — after the failed
flush. -/
theorem claim_C1_counterexample :
    (flushStep false { store := [], batch := [((0 : ℚ), "HAPPY")] }).batch = [] ∧
      ¬ ((((0 : ℚ), "HAPPY") : BatchEntry) ∈
          (flushStep false { store := [], batch := [((0 : ℚ), "HAPPY")] }).batch) := by
  exact ⟨rfl, by decide⟩

/-- C1, amended: a failed `save_emotions_batch` call itself leaves the store
untouched, does not touch the in-memory batch, and reports the failure by
returning `False`; but both frontend call sites clear the batch
unconditionally after calling it, so after a failed flush the batch is empty
and the unsaved entries are dropped (with a user-visible error) rather than
retained for a later retry. -/
theorem claim_C1_amended :
    ∀ store batch : List BatchEntry,
      save_emotions_batch false store batch = (store, false) ∧
        (flushStep false { store := store, batch := batch }).store = store ∧
        (flushStep false { store := store, batch := batch }).batch = [] := by
  intro store batch
  exact ⟨rfl, rfl, rfl⟩

/-- C2: an entry joins the batch exactly when its emotion is not the
sentinel "NO FACE" (the combined content grows by the entry precisely in the
non-sentinel case); for every call sequence, after stopping, the store holds
exactly the non-sentinel entries in call order; and the batch is empty
immediately after a successful flush. -/
theorem claim_C2 :
    (∀ (st : BatchState) (ts : ℚ) (e : String),
        (recordStep true st ts e).store ++ (recordStep true st ts e).batch =
          st.store ++ st.batch ++ (if e = "NO FACE" then [] else [(ts, e)])) ∧
      (∀ calls : List BatchEntry,
          (stopStep true (runRecords true { store := [], batch := [] } calls)).store =
              calls.filter (fun c => decide (c.2 ≠ "NO FACE")) ∧
            (stopStep true (runRecords true { store := [], batch := [] } calls)).batch = []) ∧
      (∀ st : BatchState, (flushStep true st).batch = []) := by
  refine ⟨recordStep_content, ?_, fun st => (flushStep_ok st).2⟩
  intro calls
  have h := runRecords_content calls { store := [], batch := [] }
  simp only [List.nil_append] at h
  obtain ⟨hs, hb⟩ := stopStep_ok (runRecords true { store := [], batch := [] } calls)
  exact ⟨by rw [hs, h], hb⟩

/-- C3: the flush threshold is the fixed constant 60; whenever an appended
non-sentinel entry brings the batch to the threshold, the batch is saved to
the store and the in-memory batch size is 0 immediately afterwards; and
stopping with a nonempty batch also flushes it. -/
theorem claim_C3 :
    BATCH_SIZE = 60 ∧
      (∀ (st : BatchState) (ts : ℚ) (e : String),
          e ≠ "NO FACE" →
          BATCH_SIZE ≤ (st.batch ++ [(ts, e)]).length →
          (recordStep true st ts e).batch = [] ∧
            (recordStep true st ts e).store = st.store ++ st.batch ++ [(ts, e)]) ∧
      (∀ st : BatchState, st.batch ≠ [] →
          (stopStep true st).store = st.store ++ st.batch ∧
            (stopStep true st).batch = []) := by
  refine ⟨rfl, ?_, fun st _ => stopStep_ok st⟩
  intro st ts e he hlen
  have hlen2 : BATCH_SIZE ≤ st.batch.length + 1 := by simpa using hlen
  constructor
  · simp [recordStep, he, hlen2, flushStep]
  · simp [recordStep, he, hlen2, flushStep, save_emotions_batch, List.append_assoc]

/-- C3, witness: a batch of 59 entries receiving a 60th is flushed (store
gets all 60 entries, batch becomes empty), and stopping with a one-entry
batch flushes it. -/
theorem claim_C3_witness :
    ((recordStep true
        { store := [], batch := List.replicate 59 ((0 : ℚ), "HAPPY") } 1 "SAD").batch = [] ∧
      (recordStep true
          { store := [], batch := List.replicate 59 ((0 : ℚ), "HAPPY") } 1 "SAD").store =
        ([] : List BatchEntry) ++ List.replicate 59 ((0 : ℚ), "HAPPY") ++ [(1, "SAD")]) ∧
      ((stopStep true { store := [], batch := [((2 : ℚ), "CALM")] }).store =
          ([] : List BatchEntry) ++ [((2 : ℚ), "CALM")] ∧
        (stopStep true { store := [], batch := [((2 : ℚ), "CALM")] }).batch = []) :=
  ⟨claim_C3.2.1 { store := [], batch := List.replicate 59 ((0 : ℚ), "HAPPY") } 1 "SAD"
      (by decide) (by decide),
    claim_C3.2.2 { store := [], batch := [((2 : ℚ), "CALM")] } (by decide)⟩

/-- C5: `clear_emotions` without the confirmation flag is rejected with HTTP
400 and leaves the store (hence its row count) unchanged; with the flag it
deletes every row, leaving the row count at zero. -/
theorem claim_C5 :
    ∀ store : List EmotionRow,
      ((clear_emotions false store).1 = store ∧
          (clear_emotions false store).1.length = store.length ∧
          (clear_emotions false store).2 = Except.error 400) ∧
        ((clear_emotions true store).1.length = 0 ∧
          (clear_emotions true store).2 = Except.ok "All emotion data cleared") := by
  intro store
  exact ⟨⟨rfl, rfl, rfl⟩, rfl, rfl⟩

/-- C8: the sampling gate submits a frame exactly when
`frame_count % sample_interval == 0`, and the interval constant
`FRAME_SAMPLE_RATE` is 24; `shouldSample` is a pure function of the counter
and the interval. -/
theorem claim_C8 :
    FRAME_SAMPLE_RATE = 24 ∧
      ∀ frame_count : Nat,
        (shouldSample frame_count FRAME_SAMPLE_RATE = true ↔ frame_count % 24 = 0) := by
  refine ⟨rfl, ?_⟩
  intro n
  simp [shouldSample, FRAME_SAMPLE_RATE]

/-! ### The classifier wrapper -/

/-- C4: for every well-formed service response (each face entry carries at
least one emotion entry, and the service's emotion labels are not the
in-band sentinel string), the wrapper returns "NO FACE" exactly when the
response contains zero face entries; with one or more faces it returns the
label of the first emotion entry of the first face entry, in service order;
and in both cases the outcome is an ordinary return value (`Except.ok`),
distinct from a raised transport or service failure. -/
theorem claim_C4 :
    ∀ r : RekognitionResponse,
      (∀ f ∈ r.faceDetails, f.emotions ≠ [] ∧ ∀ e ∈ f.emotions, e.type ≠ "NO FACE") →
      ((detect_emotion r = Except.ok "NO FACE" ↔ r.faceDetails = []) ∧
        (∀ f fs, r.faceDetails = f :: fs →
            ∃ e es, f.emotions = e :: es ∧ detect_emotion r = Except.ok e.type) ∧
        (∃ s, detect_emotion r = Except.ok s)) := by
  intro r h
  obtain ⟨fd⟩ := r
  cases fd with
  | nil =>
    refine ⟨by simp [detect_emotion], ?_, ⟨"NO FACE", rfl⟩⟩
    intro f fs hc
    cases hc
  | cons f fs =>
    obtain ⟨emos⟩ := f
    have hf := h ⟨emos⟩ (List.mem_cons_self _ _)
    cases emos with
    | nil => exact absurd rfl hf.1
    | cons e es =>
      have hsent : e.type ≠ "NO FACE" := hf.2 e (List.mem_cons_self _ _)
      refine ⟨?_, ?_, ⟨e.type, rfl⟩⟩
      · constructor
        · intro hok
          have : e.type = "NO FACE" := by
            have h2 : Except.ok (ε := Unit) e.type = Except.ok "NO FACE" := hok
            exact Except.ok.inj h2
          exact absurd this hsent
        · intro hc
          cases hc
      · intro f2 fs2 hc
        have hf2 : f2 = ⟨e :: es⟩ := ((List.cons.inj hc).1).symm
        subst hf2
        exact ⟨e, es, rfl, rfl⟩

/-- C4, witness: on a concrete response carrying one face whose first
emotion entry is HAPPY, the wrapper returns `HAPPY`, and it returns the
sentinel precisely on the face-free response. -/
theorem claim_C4_witness :
    ((detect_emotion
          { faceDetails := [{ emotions := [⟨"HAPPY", 99⟩, ⟨"CALM", 1⟩] }] } =
            Except.ok "NO FACE" ↔
        ({ faceDetails := [{ emotions := [⟨"HAPPY", 99⟩, ⟨"CALM", 1⟩] }] } :
            RekognitionResponse).faceDetails = []) ∧
      (∀ f fs,
          ({ faceDetails := [{ emotions := [⟨"HAPPY", 99⟩, ⟨"CALM", 1⟩] }] } :
              RekognitionResponse).faceDetails = f :: fs →
          ∃ e es, f.emotions = e :: es ∧
            detect_emotion
                { faceDetails := [{ emotions := [⟨"HAPPY", 99⟩, ⟨"CALM", 1⟩] }] } =
              Except.ok e.type) ∧
      (∃ s,
        detect_emotion
            { faceDetails := [{ emotions := [⟨"HAPPY", 99⟩, ⟨"CALM", 1⟩] }] } =
          Except.ok s)) :=
  claim_C4 { faceDetails := [{ emotions := [⟨"HAPPY", 99⟩, ⟨"CALM", 1⟩] }] }
    (by decide)

/-- C10: the wrapper is total exactly under the precondition that every
face entry carries at least one emotion entry — under it, every response
yields an ordinary returned label or sentinel — while on a response whose
first face entry has an empty emotions list the unguarded double indexing
raises (modelled `Except.error ()`) instead of returning a label or the
sentinel. -/
theorem claim_C10 :
    (∀ r : RekognitionResponse,
        (∀ f ∈ r.faceDetails, f.emotions ≠ []) →
        ∃ s, detect_emotion r = Except.ok s) ∧
      detect_emotion { faceDetails := [{ emotions := [] }] } = Except.error () := by
  refine ⟨?_, rfl⟩
  intro r h
  obtain ⟨fd⟩ := r
  cases fd with
  | nil => exact ⟨"NO FACE", rfl⟩
  | cons f fs =>
    obtain ⟨emos⟩ := f
    cases emos with
    | nil => exact absurd rfl (h ⟨[]⟩ (List.mem_cons_self _ _))
    | cons e es => exact ⟨e.type, rfl⟩

/-- C10, witness: the totality half applied to a concrete one-face,
one-emotion response. -/
theorem claim_C10_witness :
    ∃ s,
      detect_emotion { faceDetails := [{ emotions := [⟨"SAD", 80⟩] }] } =
        Except.ok s :=
  claim_C10.1 { faceDetails := [{ emotions := [⟨"SAD", 80⟩] }] } (by decide)

/-! ### The schema migration -/

/-- C9: `migrate_database` is idempotent on the target store — after a
second run the target database (schema flag and rows, hence row count) is
identical to what the first run produced — and any pre-existing target
store is placed among the backups before being overwritten. -/
theorem claim_C9 :
    (∀ fs : MigFS,
        (migrate_database (migrate_database fs)).newDB =
          (migrate_database fs).newDB) ∧
      (∀ (fs : MigFS) (old db : MigDB),
          fs.oldDB = some old → fs.newDB = some db →
          db ∈ (migrate_database fs).backups) := by
  constructor
  · intro fs
    obtain ⟨o, n, b⟩ := fs
    cases o with
    | none => rfl
    | some old => cases n <;> rfl
  · intro fs old db hold hnew
    obtain ⟨o, n, b⟩ := fs
    simp only at hold hnew
    subst hold
    subst hnew
    simp [migrate_database]

/-- C9, witness: a concrete filesystem with both a source store and a
pre-existing target store; the target ends up among the backups. -/
theorem claim_C9_witness :
    (⟨true, [((0 : ℚ), "HAPPY")]⟩ : MigDB) ∈
      (migrate_database
          { oldDB := some ⟨false, [((1 : ℚ), "SAD")]⟩,
            newDB := some ⟨true, [((0 : ℚ), "HAPPY")]⟩,
            backups := [] }).backups :=
  claim_C9.2
    { oldDB := some ⟨false, [((1 : ℚ), "SAD")]⟩,
      newDB := some ⟨true, [((0 : ℚ), "HAPPY")]⟩,
      backups := [] }
    ⟨false, [((1 : ℚ), "SAD")]⟩ ⟨true, [((0 : ℚ), "HAPPY")]⟩ rfl rfl

/-! ### The export operation -/

/-- C7: the export is a permutation of the persisted rows (every row, with
every persisted field, appears exactly once), sorted by timestamp
descending; and `insert_many` of a batch of `n` records — including `n = 0`
— followed by export yields a row count equal to the previous count plus
`n` (likewise for the monolith's unordered `SELECT *` export). -/
theorem claim_C7 :
    (∀ store : List EmotionRow,
        (export_emotions store).Perm store ∧
          List.Pairwise (fun a b : EmotionRow => b.timestamp ≤ a.timestamp)
            (export_emotions store)) ∧
      (∀ (now : ℚ) (store : List EmotionRow) (batch : List BatchEntry),
          (export_emotions (insert_many now store batch)).length =
              store.length + batch.length ∧
            (export_df (insert_many now store batch)).length =
              store.length + batch.length) := by
  constructor
  · intro store
    refine ⟨List.mergeSort_perm store _, ?_⟩
    have h :=
      @List.sorted_mergeSort EmotionRow
        (fun a b : EmotionRow => decide (b.timestamp ≤ a.timestamp))
        (fun a b c h1 h2 => by
          simp only [decide_eq_true_eq] at h1 h2 ⊢
          exact le_trans h2 h1)
        (fun a b => by
          simp only [Bool.or_eq_true, decide_eq_true_eq]
          exact le_total b.timestamp a.timestamp)
        store
    exact h.imp (fun hab => by simpa using hab)
  · intro now store batch
    constructor
    · simp [export_emotions, insert_many]
    · simp [export_df, insert_many]

/-! ### Helper lemmas for the daily distribution query -/

/-- Rounding to two decimals moves a rational by at most `1/200`. -/
theorem round2_abs_le (q : ℚ) : |round2 q - q| ≤ 1 / 200 := by
  have h : |(round (100 * q) : ℚ) - 100 * q| ≤ 1 / 2 := by
    have h0 := abs_sub_round (α := ℚ) (100 * q)
    rwa [abs_sub_comm] at h0
  have h2 : round2 q - q = ((round (100 * q) : ℚ) - 100 * q) / 100 := by
    rw [round2]
    ring
  rw [h2, abs_div, abs_of_pos (show (0 : ℚ) < 100 by norm_num)]
  linarith

/-- Rounding every element of a list of rationals moves the sum by at most
`length / 200`. -/
theorem sum_map_round2_abs (xs : List ℚ) :
    |(xs.map round2).sum - xs.sum| ≤ (xs.length : ℚ) / 200 := by
  induction xs with
  | nil => simp
  | cons x xs ih =>
    simp only [List.map_cons, List.sum_cons, List.length_cons]
    have h1 := round2_abs_le x
    have hc : ((xs.length + 1 : ℕ) : ℚ) = (xs.length : ℚ) + 1 := by
      push_cast
      ring
    rw [hc]
    calc |round2 x + (xs.map round2).sum - (x + xs.sum)|
        = |(round2 x - x) + ((xs.map round2).sum - xs.sum)| := by
          rw [show round2 x + (xs.map round2).sum - (x + xs.sum) =
            (round2 x - x) + ((xs.map round2).sum - xs.sum) from by ring]
      _ ≤ |round2 x - x| + |(xs.map round2).sum - xs.sum| := abs_add _ _
      _ ≤ 1 / 200 + (xs.length : ℚ) / 200 := add_le_add h1 ih
      _ = ((xs.length : ℚ) + 1) / 200 := by ring

/-- Pulling a constant factor and a cast out of a list sum. -/
theorem sum_map_mul_const (l : List String) (f : String → Nat) (c : ℚ) :
    (l.map fun e => (f e : ℚ) * c).sum = ((l.map f).sum : ℚ) * c := by
  induction l with
  | nil => simp
  | cons x xs ih =>
    simp only [List.map_cons, List.sum_cons, Nat.cast_add, ih]
    ring

/-- The exact (unrounded) per-day percentages sum to exactly 100. -/
theorem exact_pct_sum (es : List String) (hes : es ≠ []) :
    (es.dedup.map fun e => (es.count e : ℚ) / (es.length : ℚ) * 100).sum = 100 := by
  have hlen0 : 0 < es.length := List.length_pos.mpr hes
  have hlen : ((es.length : ℚ)) ≠ 0 := Nat.cast_ne_zero.mpr hlen0.ne'
  have hfun : (fun e => (es.count e : ℚ) / (es.length : ℚ) * 100) =
      fun e => (es.count e : ℚ) * (100 / (es.length : ℚ)) := by
    funext e
    ring
  rw [hfun, sum_map_mul_const es.dedup (fun e => es.count e) (100 / (es.length : ℚ)),
    List.sum_map_count_dedup_eq_length]
  field_simp

/-- Every result row built for day `d` carries date `d`. -/
theorem stats_date_mem (rows : List EmotionRow) (d : Int) :
    ∀ x ∈ statsForDay rows d, x.date = d := by
  intro x hx
  obtain ⟨e, _, he⟩ := List.mem_map.mp hx
  rw [← he]

/-- Filtering the concatenated per-day groups down to one day recovers
exactly that day's group, provided the day keys are distinct and each group
only holds rows of its own day. -/
theorem flatMap_filter_of_nodup (l : List Int) (f : Int → List EmotionStats)
    (hf : ∀ d0, ∀ x ∈ f d0, x.date = d0) :
    ∀ d : Int, l.Nodup → d ∈ l →
      (l.flatMap f).filter (fun x => decide (x.date = d)) = f d := by
  induction l with
  | nil =>
    intro d _ hd
    cases hd
  | cons a l ih =>
    intro d hnd hd
    rw [List.flatMap_cons, List.filter_append]
    rcases List.mem_cons.mp hd with h | h
    · subst h
      have h1 : (f d).filter (fun x => decide (x.date = d)) = f d :=
        List.filter_eq_self.mpr (fun x hx => by simp [hf d x hx])
      have h2 : (l.flatMap f).filter (fun x => decide (x.date = d)) = [] := by
        refine List.filter_eq_nil_iff.mpr ?_
        intro x hx
        obtain ⟨d0, hd0, hxd0⟩ := List.mem_flatMap.mp hx
        have hxd : x.date = d0 := hf d0 x hxd0
        have ha : d ∉ l := (List.nodup_cons.mp hnd).1
        simp only [decide_eq_true_eq, hxd]
        intro hcon
        exact ha (hcon ▸ hd0)
      rw [h1, h2, List.append_nil]
    · have ha : a ∉ l := (List.nodup_cons.mp hnd).1
      have hne : a ≠ d := fun hc => ha (hc ▸ h)
      have h1 : (f a).filter (fun x => decide (x.date = d)) = [] := by
        refine List.filter_eq_nil_iff.mpr ?_
        intro x hx
        have hxa := hf a x hx
        simp [hxa, hne]
      rw [h1, List.nil_append]
      exact ih d (List.nodup_cons.mp hnd).2 h

/-- The rounded per-day percentages of one day's group sum to 100 up to the
rounding epsilon `length / 200`. -/
theorem statsForDay_pct_sum (rows : List EmotionRow) (d : Int)
    (hes : emotionsOfDay rows d ≠ []) :
    |((statsForDay rows d).map (fun x => x.percentage)).sum - 100| ≤
      ((statsForDay rows d).length : ℚ) / 200 := by
  have hmap : (statsForDay rows d).map (fun x => x.percentage) =
      ((emotionsOfDay rows d).dedup.map
          (fun e => ((emotionsOfDay rows d).count e : ℚ) /
            ((emotionsOfDay rows d).length : ℚ) * 100)).map round2 := by
    simp [statsForDay, List.map_map]
  have hlen : (statsForDay rows d).length = (emotionsOfDay rows d).dedup.length := by
    simp [statsForDay]
  have hb := sum_map_round2_abs
      ((emotionsOfDay rows d).dedup.map
        (fun e => ((emotionsOfDay rows d).count e : ℚ) /
          ((emotionsOfDay rows d).length : ℚ) * 100))
  rw [exact_pct_sum (emotionsOfDay rows d) hes] at hb
  rw [hmap, hlen]
  simpa using hb

/-- C6: for every store and range start, a day with no in-range records
contributes no result rows (an empty result, not an error); and a day with
at least one in-range record is reported as one row per `(day, emotion)`
pair — its count and rounded percentage of the day's total — whose
percentages sum to 100 up to the rounding epsilon of `1/200` per reported
row. -/
theorem claim_C6 :
    ∀ (startTs : ℚ) (store : List EmotionRow) (d : Int),
      ((rowsInRange startTs store).filter
            (fun r => decide (dayOf r.timestamp = d)) = [] →
          (get_daily_emotion_stats startTs store).filter
              (fun x => decide (x.date = d)) = []) ∧
        ((rowsInRange startTs store).filter
              (fun r => decide (dayOf r.timestamp = d)) ≠ [] →
            (get_daily_emotion_stats startTs store).filter
                (fun x => decide (x.date = d)) =
              statsForDay (rowsInRange startTs store) d ∧
              |(((get_daily_emotion_stats startTs store).filter
                      (fun x => decide (x.date = d))).map
                    (fun x => x.percentage)).sum - 100| ≤
                ((((get_daily_emotion_stats startTs store).filter
                      (fun x => decide (x.date = d))).length : ℚ)) / 200) := by
  intro startTs store d
  constructor
  · intro hempty
    refine List.filter_eq_nil_iff.mpr ?_
    intro x hx
    simp only [get_daily_emotion_stats] at hx
    obtain ⟨d0, hd0, hxd0⟩ := List.mem_flatMap.mp hx
    have hxd : x.date = d0 := stats_date_mem _ _ x hxd0
    have hmem : d0 ∈ (rowsInRange startTs store).map (fun r => dayOf r.timestamp) :=
      List.mem_dedup.mp hd0
    obtain ⟨r, hr, hrd⟩ := List.mem_map.mp hmem
    have hall := List.filter_eq_nil_iff.mp hempty r hr
    simp only [decide_eq_true_eq] at hall ⊢
    rw [hxd]
    intro hcon
    exact hall (hrd.trans hcon)
  · intro hne
    have hd : d ∈ ((rowsInRange startTs store).map
        (fun r => dayOf r.timestamp)).dedup := by
      rw [List.mem_dedup]
      obtain ⟨r, hr⟩ := List.exists_mem_of_ne_nil _ hne
      have hr2 := List.mem_filter.mp hr
      refine List.mem_map.mpr ⟨r, hr2.1, ?_⟩
      simpa using hr2.2
    have hfilter :
        (get_daily_emotion_stats startTs store).filter
            (fun x => decide (x.date = d)) =
          statsForDay (rowsInRange startTs store) d :=
      flatMap_filter_of_nodup _ _ (stats_date_mem (rowsInRange startTs store)) d
        (List.nodup_dedup _) hd
    refine ⟨hfilter, ?_⟩
    rw [hfilter]
    have hes : emotionsOfDay (rowsInRange startTs store) d ≠ [] := by
      intro hcon
      apply hne
      simpa [emotionsOfDay] using hcon
    exact statsForDay_pct_sum (rowsInRange startTs store) d hes

/-- A concrete store for exercising the distribution query: four records on
the epoch day (HAPPY twice, SAD once, ANGRY once). -/
def demoStore : List EmotionRow :=
  [⟨0, "HAPPY", 0⟩, ⟨1, "HAPPY", 0⟩, ⟨2, "SAD", 0⟩, ⟨3, "ANGRY", 0⟩]

/-- Any timestamp inside the epoch day lies on day 0. -/
theorem dayOf_eq_zero (q : ℚ) (h0 : 0 ≤ q) (h1 : q < 86400) : dayOf q = 0 := by
  rw [dayOf, Int.floor_eq_zero_iff, Set.mem_Ico]
  constructor
  · exact div_nonneg h0 (by norm_num)
  · rw [div_lt_one (show (0 : ℚ) < 86400 by norm_num)]
    exact h1

/-- All demo rows have nonnegative timestamps, so the range filter keeps
them all. -/
theorem demoRows_mem_range : rowsInRange 0 demoStore = demoStore := by
  rw [rowsInRange]
  apply List.filter_eq_self.mpr
  intro r hr
  simp only [demoStore, List.mem_cons, List.not_mem_nil, or_false] at hr
  rcases hr with h | h | h | h <;> subst h <;> norm_num

/-- Day 5 has no demo records. -/
theorem demo_empty5 :
    (rowsInRange 0 demoStore).filter
      (fun r => decide (dayOf r.timestamp = 5)) = [] := by
  rw [demoRows_mem_range]
  apply List.filter_eq_nil_iff.mpr
  intro r hr
  simp only [demoStore, List.mem_cons, List.not_mem_nil, or_false] at hr
  have h0 : dayOf r.timestamp = 0 := by
    rcases hr with h | h | h | h <;> subst h <;>
      exact dayOf_eq_zero _ (by norm_num) (by norm_num)
  simp [h0]

/-- Day 0 has at least one demo record. -/
theorem demo_nonempty0 :
    (rowsInRange 0 demoStore).filter
      (fun r => decide (dayOf r.timestamp = 0)) ≠ [] := by
  rw [demoRows_mem_range]
  have hmem : (⟨0, "HAPPY", 0⟩ : EmotionRow) ∈
      demoStore.filter (fun r => decide (dayOf r.timestamp = 0)) := by
    rw [List.mem_filter]
    refine ⟨by simp [demoStore], ?_⟩
    have h0 : dayOf ((⟨0, "HAPPY", 0⟩ : EmotionRow).timestamp) = 0 :=
      dayOf_eq_zero _ (by norm_num) (by norm_num)
    simp [h0]
  exact List.ne_nil_of_mem hmem

/-- C6, witness: on the concrete store, day 5 (no records) yields an empty
result, and day 0 (four records) yields its per-emotion rows with
percentages summing to 100 up to the epsilon. -/
theorem claim_C6_witness :
    ((get_daily_emotion_stats 0 demoStore).filter
        (fun x => decide (x.date = 5)) = []) ∧
      ((get_daily_emotion_stats 0 demoStore).filter
            (fun x => decide (x.date = 0)) =
          statsForDay (rowsInRange 0 demoStore) 0 ∧
        |(((get_daily_emotion_stats 0 demoStore).filter
                (fun x => decide (x.date = 0))).map
              (fun x => x.percentage)).sum - 100| ≤
          ((((get_daily_emotion_stats 0 demoStore).filter
                (fun x => decide (x.date = 0))).length : ℚ)) / 200) :=
  ⟨(claim_C6 0 demoStore 5).1 demo_empty5,
    (claim_C6 0 demoStore 0).2 demo_nonempty0⟩
